import Mathlib

/-!
Shallow embedding of the Tag_App backend (src/main.py and src/models.py):
the persisted user row, the response model, the Haversine distance
calculator, and the handlers for register, read-self, profile update and
the nearby search.  Python floats are idealised as real numbers; the
store is a list of rows; fallible handlers return `Except HTTPError`.
-/

namespace TagApp

/-- The stored value of the `interests` column (a `String` column in
`models.User`).  `update_profile` normally writes the JSON serialisation
of the submitted list, but its truthiness test skips the serialisation
for an empty list, so the raw list is handed to the store in that case. -/
inductive InterestsCol where
  | json (s : String)
  | raw (l : List String)
deriving DecidableEq

/-- A persisted user row, from `models.User` (src/models.py).  Field
defaults mirror the SQLAlchemy column defaults. -/
structure UserRec where
  id : Nat
  email : String
  hashed_password : String
  full_name : String
  is_active : Bool := true
  latitude : Option ℝ := none
  longitude : Option ℝ := none
  interests : Option InterestsCol := none
  max_distance : Option ℝ := some 10
  preferred_age_range_min : Option Int := some 18
  preferred_age_range_max : Option Int := some 100
  age : Option Int := none
  gender : Option String := none

/-- An HTTP error response (`HTTPException` with status and detail). -/
structure HTTPError where
  status : Nat
  detail : String
deriving DecidableEq

/-- The `User` pydantic response model (src/main.py lines 40-53): the
serialised view of a user row.  It carries neither the stored password
hash nor the row id. -/
structure UserOut where
  email : String
  full_name : String
  is_active : Bool
  latitude : Option ℝ
  longitude : Option ℝ
  interests : Option InterestsCol
  max_distance : Option ℝ
  preferred_age_range_min : Option Int
  preferred_age_range_max : Option Int
  age : Option Int
  gender : Option String

/-- Serialisation of a stored row through the `User` response model
(`response_model=User` on every user-returning endpoint). -/
def toUserOut (u : UserRec) : UserOut :=
  { email := u.email
    full_name := u.full_name
    is_active := u.is_active
    latitude := u.latitude
    longitude := u.longitude
    interests := u.interests
    max_distance := u.max_distance
    preferred_age_range_min := u.preferred_age_range_min
    preferred_age_range_max := u.preferred_age_range_max
    age := u.age
    gender := u.gender }

/-- Degree-to-radian conversion, `math.radians`. -/
noncomputable def radiansF (x : ℝ) : ℝ := x * (Real.pi / 180)

open Classical in
/-- Two-argument arctangent `math.atan2 y x`, idealised over the reals. -/
noncomputable def atan2 (y x : ℝ) : ℝ :=
  if 0 < x then Real.arctan (y / x)
  else if x < 0 ∧ 0 ≤ y then Real.arctan (y / x) + Real.pi
  else if x < 0 then Real.arctan (y / x) - Real.pi
  else if 0 < y then Real.pi / 2
  else if y < 0 then -(Real.pi / 2)
  else 0

/-- `calculate_distance` (src/main.py lines 94-106): great-circle
distance in kilometres by the Haversine formula, Earth radius 6371 km. -/
noncomputable def calculate_distance (lat1 lon1 lat2 lon2 : ℝ) : ℝ :=
  let R : ℝ := 6371
  let rlat1 := radiansF lat1
  let rlon1 := radiansF lon1
  let rlat2 := radiansF lat2
  let rlon2 := radiansF lon2
  let dlat := rlat2 - rlat1
  let dlon := rlon2 - rlon1
  let a := Real.sin (dlat / 2) ^ 2 +
    Real.cos rlat1 * Real.cos rlat2 * Real.sin (dlon / 2) ^ 2
  let c := 2 * atan2 (Real.sqrt a) (Real.sqrt (1 - a))
  R * c

/-- `get_user` (src/main.py lines 128-129): first stored row whose email
matches exactly. -/
def get_user (db : List UserRec) (email : String) : Option UserRec :=
  db.find? fun u => u.email == email

/-- The 400 response raised by `register_user` on a taken email. -/
def email_taken_error : HTTPError := ⟨400, "Email already registered"⟩

/-- The row created by `register_user`: submitted email, hash of the
submitted password, submitted full name, every other column at its
default. -/
def freshUser (hashfn : String → String) (newId : Nat)
    (email password fullName : String) : UserRec :=
  { id := newId
    email := email
    hashed_password := hashfn password
    full_name := fullName }

/-- `register_user` (src/main.py lines 138-153).  Password hashing is
delegated to the external passlib context, passed in as `hashfn`; `newId`
is the store-assigned primary key.  On success the handler returns the
created row and the store gains exactly that row; on a taken email it
fails with 400 and the store is untouched. -/
def register_user (hashfn : String → String) (db : List UserRec) (newId : Nat)
    (email password fullName : String) : Except HTTPError (UserRec × List UserRec) :=
  match get_user db email with
  | some _ => .error email_taken_error
  | none =>
    let u := freshUser hashfn newId email password fullName
    .ok (u, db ++ [u])

/-- The claim set carried by a decoded token: its optional `sub` field. -/
structure TokenClaims where
  sub : Option String

/-- Modelled from the spec: the Session Token Service (spec §4.3) is the
external JWT library, absent from src/.  An inbound token is abstracted
by whether its signature verifies, whether it is expired, and the claim
set it carries. -/
structure TokenModel where
  sigOk : Bool
  expired : Bool
  claims : TokenClaims

/-- Modelled from the spec: `jwt.decode` (spec §4.3) yields the claim set
when the signature verifies and the token is unexpired, and raises a
`JWTError` (here: `none`) when signature verification fails or the token
is expired. -/
def jwtDecode (t : TokenModel) : Option TokenClaims :=
  if t.sigOk && !t.expired then some t.claims else none

/-- The single 401 response raised by `get_current_user`. -/
def credentials_exception : HTTPError := ⟨401, "Could not validate credentials"⟩

/-- `get_current_user` (src/main.py lines 108-125): decode the token,
read the `sub` claim, look the email up in the store; every failure is
the one 401 `credentials_exception`. -/
def get_current_user (t : TokenModel) (db : List UserRec) :
    Except HTTPError UserRec :=
  match jwtDecode t with
  | none => .error credentials_exception
  | some payload =>
    match payload.sub with
    | none => .error credentials_exception
    | some email =>
      match get_user db email with
      | none => .error credentials_exception
      | some u => .ok u

/-- `ProfileUpdate` (src/main.py lines 59-67) with pydantic field
presence made explicit: the outer `Option` is presence in the payload
(`exclude_unset=True` keeps only submitted fields), the inner `Option`
is an explicit JSON null. -/
structure ProfileUpdate where
  latitude : Option (Option ℝ) := none
  longitude : Option (Option ℝ) := none
  interests : Option (Option (List String)) := none
  max_distance : Option (Option ℝ) := none
  preferred_age_range_min : Option (Option Int) := none
  preferred_age_range_max : Option (Option Int) := none
  age : Option (Option Int) := none
  gender : Option (Option String) := none

/-- JSON serialisation of a string list; models the external
`json.dumps` used on a submitted interests list. -/
def jsonDumps (l : List String) : String :=
  "[" ++ String.intercalate ", " (l.map fun s => "\"" ++ s ++ "\"") ++ "]"

/-- The row update performed by `update_profile` (src/main.py lines
174-188): only fields present in the payload are written; a submitted
non-empty interests list is JSON-serialised first, while the truthiness
test leaves a submitted empty list raw and a submitted null as null. -/
def applyUpdate (u : UserRec) (p : ProfileUpdate) : UserRec :=
  { u with
    latitude := p.latitude.getD u.latitude
    longitude := p.longitude.getD u.longitude
    interests :=
      match p.interests with
      | none => u.interests
      | some none => none
      | some (some l) =>
        if l.isEmpty then some (.raw l) else some (.json (jsonDumps l))
    max_distance := p.max_distance.getD u.max_distance
    preferred_age_range_min :=
      p.preferred_age_range_min.getD u.preferred_age_range_min
    preferred_age_range_max :=
      p.preferred_age_range_max.getD u.preferred_age_range_max
    age := p.age.getD u.age
    gender := p.gender.getD u.gender }

/-- The serialised response of `update_profile` for the calling user:
the updated row through the `User` response model. -/
def update_profile_response (u : UserRec) (p : ProfileUpdate) : UserOut :=
  toUserOut (applyUpdate u p)

/-- The serialised response of `register_user` (`response_model=User`). -/
def register_user_response (hashfn : String → String) (db : List UserRec)
    (newId : Nat) (email password fullName : String) :
    Except HTTPError UserOut :=
  (register_user hashfn db newId email password fullName).map fun r => toUserOut r.1

/-- `read_users_me` (src/main.py lines 170-172): the resolved caller
through the `User` response model. -/
def read_users_me (t : TokenModel) (db : List UserRec) :
    Except HTTPError UserOut :=
  (get_current_user t db).map toUserOut

/-- The 400 response raised by `get_nearby_users` on a falsy coordinate. -/
def location_not_set_error : HTTPError := ⟨400, "User location not set"⟩

open Classical in
/-- The radius picked on src/main.py line 198:
`current_user.max_distance or 10`.  Python `or` yields the right operand
exactly when the left one is falsy, i.e. `None` or `0.0`; any other
value, a negative one included, is kept. -/
noncomputable def effectiveRadius (md : Option ℝ) : ℝ :=
  match md with
  | none => 10
  | some v => if v = 0 then 10 else v

open Classical in
/-- `get_nearby_users` (src/main.py lines 190-218).  The guard mirrors
Python truthiness: `not x` is true both for `None` and for `0.0`.  The
store query keeps rows with a different id and both coordinates non-NULL;
the comprehension then keeps those within `effectiveRadius`. -/
noncomputable def get_nearby_users (db : List UserRec) (cu : UserRec) :
    Except HTTPError (List UserRec) :=
  if (cu.latitude = none ∨ cu.latitude = some 0) ∨
      (cu.longitude = none ∨ cu.longitude = some 0) then
    .error location_not_set_error
  else
    let maxDist := effectiveRadius cu.max_distance
    let allUsers := db.filter fun u =>
      decide (u.id ≠ cu.id) && u.latitude.isSome && u.longitude.isSome
    .ok (allUsers.filter fun u =>
      decide (calculate_distance (cu.latitude.getD 0) (cu.longitude.getD 0)
        (u.latitude.getD 0) (u.longitude.getD 0) ≤ maxDist))

/-- The `response_model=List[User]` serialisation of `get_nearby_users`. -/
noncomputable def get_nearby_users_response (db : List UserRec) (cu : UserRec) :
    Except HTTPError (List UserOut) :=
  (get_nearby_users db cu).map (List.map toUserOut)

/-- Replace a row's stored password hash, leaving every other column
alone. -/
def rehash (f : UserRec → String) (u : UserRec) : UserRec :=
  { u with hashed_password := f u }

/-- A concrete stored row used to exercise theorems on concrete data. -/
def demoUser : UserRec :=
  { id := 1
    email := "ann@example.com"
    hashed_password := "h1"
    full_name := "Ann"
    latitude := some 3
    longitude := some 4 }

/-- The requester of the spec §8 nearby example: at (0,0) with
`max_distance` 15. -/
def c1Requester : UserRec :=
  { id := 1
    email := "req@example.com"
    hashed_password := "h"
    full_name := "R"
    latitude := some 0
    longitude := some 0
    max_distance := some 15 }

/-- The spec §8 candidate at (0, 0.1), about 11.1 km from the origin. -/
noncomputable def c1CandidateNear : UserRec :=
  { id := 2
    email := "near@example.com"
    hashed_password := "h"
    full_name := "N"
    latitude := some 0
    longitude := some (1 / 10) }

/-- The spec §8 candidate at (0, 0.2), about 22.2 km from the origin. -/
noncomputable def c1CandidateFar : UserRec :=
  { id := 3
    email := "far@example.com"
    hashed_password := "h"
    full_name := "F"
    latitude := some 0
    longitude := some (1 / 5) }

/-- A requester whose coordinates are both present, with latitude 0.0. -/
def c2Requester : UserRec :=
  { id := 7
    email := "origin@example.com"
    hashed_password := "h"
    full_name := "O"
    latitude := some 0
    longitude := some 50 }

/-- C1: on the spec §8 inputs — requester at (0,0) with max_distance 15,
candidates at (0,0.1) and (0,0.2) — the code does not return the near
candidate: the truthiness guard `not current_user.latitude` treats the
valid coordinate 0.0 as unset, so the whole request fails with the 400
"User location not set" response instead. -/
theorem nearby_rejects_origin_requester :
    get_nearby_users [c1Requester, c1CandidateNear, c1CandidateFar] c1Requester =
      .error location_not_set_error := by
  have h : (c1Requester.latitude = none ∨ c1Requester.latitude = some 0) ∨
      (c1Requester.longitude = none ∨ c1Requester.longitude = some 0) :=
    Or.inl (Or.inr rfl)
  unfold get_nearby_users
  rw [if_pos h]

/-- C2: a requester whose coordinates are both present, with latitude
0.0 and longitude 50.0, is still rejected with the 400 "User location
not set" response: the guard `not current_user.latitude` is true for the
valid coordinate 0.0, refuting the claim that LocationNotSet occurs only
when a coordinate is unset. -/
theorem nearby_zero_latitude_location_not_set :
    get_nearby_users [c2Requester] c2Requester = .error location_not_set_error := by
  have h : (c2Requester.latitude = none ∨ c2Requester.latitude = some 0) ∨
      (c2Requester.longitude = none ∨ c2Requester.longitude = some 0) :=
    Or.inl (Or.inr rfl)
  unfold get_nearby_users
  rw [if_pos h]

/-- C3 counterexample: a stored max_distance of -5 is truthy, so the
code keeps it as the radius instead of defaulting to 10 km as the claim
states for non-positive values. -/
theorem effectiveRadius_negative_counterexample :
    effectiveRadius (some (-5)) = -5 ∧ ((-5 : ℝ)) ≠ 10 := by
  constructor
  · simp only [effectiveRadius]
    rw [if_neg (by norm_num : ¬((-5 : ℝ) = 0))]
  · norm_num

/-- C3 (amended): the radius used by the nearby operation equals the
requester's stored max_distance whenever that value is set and nonzero
(negative values included), and equals 10.0 km when max_distance is
unset or zero. -/
theorem effectiveRadius_cases :
    effectiveRadius none = 10 ∧ effectiveRadius (some 0) = 10 ∧
      ∀ v : ℝ, v ≠ 0 → effectiveRadius (some v) = v := by
  refine ⟨rfl, ?_, ?_⟩
  · simp [effectiveRadius]
  · intro v hv
    simp [effectiveRadius, hv]

/-- C3 witness: the amended radius rule evaluated at the set, nonzero
value 7 gives 7. -/
theorem effectiveRadius_cases_witness : effectiveRadius (some 7) = 7 :=
  effectiveRadius_cases.2.2 7 (by norm_num)

/-- The Haversine `a` term is symmetric in the two endpoints. -/
theorem haversine_a_symm (x y u v : ℝ) :
    Real.sin ((y - x) / 2) ^ 2 + Real.cos x * Real.cos y * Real.sin ((v - u) / 2) ^ 2 =
      Real.sin ((x - y) / 2) ^ 2 + Real.cos y * Real.cos x * Real.sin ((u - v) / 2) ^ 2 := by
  rw [show (y - x) / 2 = -((x - y) / 2) by ring,
    show (v - u) / 2 = -((u - v) / 2) by ring,
    Real.sin_neg, Real.sin_neg, neg_sq, neg_sq, mul_comm (Real.cos x)]

/-- The two-argument arctangent at (0, 1) is zero. -/
theorem atan2_zero_one : atan2 0 1 = 0 := by
  unfold atan2
  rw [if_pos (by norm_num : (0 : ℝ) < 1)]
  simp

/-- C4: `calculate_distance` — the Haversine distance with Earth radius
6371 km — is symmetric in its two coordinate pairs and zero on identical
points, for all real coordinates (so in particular on the valid ranges). -/
theorem calculate_distance_symm_and_zero :
    (∀ lat1 lon1 lat2 lon2 : ℝ,
      calculate_distance lat1 lon1 lat2 lon2 = calculate_distance lat2 lon2 lat1 lon1) ∧
    (∀ lat lon : ℝ, calculate_distance lat lon lat lon = 0) := by
  constructor
  · intro lat1 lon1 lat2 lon2
    simp only [calculate_distance]
    rw [haversine_a_symm (radiansF lat1) (radiansF lat2) (radiansF lon1) (radiansF lon2)]
  · intro lat lon
    simp only [calculate_distance, sub_self, zero_div, Real.sin_zero]
    norm_num [atan2_zero_one]

/-- C5: `get_current_user` fails, always with the single 401
`credentials_exception`, exactly when the token signature does not
verify, the token is expired, the `sub` claim is absent, or the subject
email maps to no stored user; when none of these hold it returns the
stored user found by that email. -/
theorem get_current_user_unauthorized_spec (t : TokenModel) (db : List UserRec) :
    (get_current_user t db = .error credentials_exception ↔
      t.sigOk = false ∨ t.expired = true ∨ t.claims.sub = none ∨
        ∃ e, t.claims.sub = some e ∧ get_user db e = none) ∧
    (∀ err, get_current_user t db = .error err → err = credentials_exception) ∧
    (∀ e u, t.sigOk = true → t.expired = false → t.claims.sub = some e →
      get_user db e = some u → get_current_user t db = .ok u) := by
  obtain ⟨sigOk, expired, ⟨sub⟩⟩ := t
  cases sigOk <;> cases expired
  · refine ⟨⟨fun _ => Or.inl rfl, fun _ => rfl⟩, ?_, ?_⟩
    · intro err herr
      injection herr with h
      exact h.symm
    · intro e u h1 _ _ _
      exact Bool.noConfusion h1
  · refine ⟨⟨fun _ => Or.inl rfl, fun _ => rfl⟩, ?_, ?_⟩
    · intro err herr
      injection herr with h
      exact h.symm
    · intro e u h1 _ _ _
      exact Bool.noConfusion h1
  · cases sub with
    | none =>
      refine ⟨⟨fun _ => Or.inr (Or.inr (Or.inl rfl)), fun _ => rfl⟩, ?_, ?_⟩
      · intro err herr
        injection herr with h
        exact h.symm
      · intro e u _ _ h3 _
        exact Option.noConfusion h3
    | some e =>
      have hred : get_current_user ⟨true, false, ⟨some e⟩⟩ db =
          (match get_user db e with
            | none => Except.error credentials_exception
            | some u => Except.ok u) := rfl
      cases hfind : get_user db e with
      | none =>
        simp only [hfind] at hred
        refine ⟨?_, ?_, ?_⟩
        · rw [hred]
          exact ⟨fun _ => Or.inr (Or.inr (Or.inr ⟨e, rfl, hfind⟩)), fun _ => rfl⟩
        · intro err herr
          rw [hred] at herr
          injection herr with h
          exact h.symm
        · intro e2 u _ _ h3 h4
          injection h3 with he
          subst he
          rw [hfind] at h4
          exact Option.noConfusion h4
      | some u =>
        simp only [hfind] at hred
        refine ⟨?_, ?_, ?_⟩
        · rw [hred]
          constructor
          · intro hcontra
            exact Except.noConfusion hcontra
          · intro hrhs
            rcases hrhs with h | h | h | ⟨e2, he2, hn⟩
            · exact Bool.noConfusion h
            · exact Bool.noConfusion h
            · exact Option.noConfusion h
            · injection he2 with he
              subst he
              rw [hfind] at hn
              exact Option.noConfusion hn
        · intro err herr
          rw [hred] at herr
          exact Except.noConfusion herr
        · intro e2 u2 _ _ h3 h4
          injection h3 with he
          subst he
          rw [hfind] at h4
          injection h4 with hu
          rw [hred, hu]
  · refine ⟨⟨fun _ => Or.inr (Or.inl rfl), fun _ => rfl⟩, ?_, ?_⟩
    · intro err herr
      injection herr with h
      exact h.symm
    · intro e u _ h2 _ _
      exact Bool.noConfusion h2

/-- C5 witness: a token with a valid signature, unexpired, whose subject
is `demoUser`'s email, resolves against a one-row store to `demoUser`. -/
theorem get_current_user_unauthorized_spec_witness :
    get_current_user ⟨true, false, ⟨some "ann@example.com"⟩⟩ [demoUser] = .ok demoUser :=
  (get_current_user_unauthorized_spec ⟨true, false, ⟨some "ann@example.com"⟩⟩
      [demoUser]).2.2 "ann@example.com" demoUser rfl rfl rfl rfl

/-- `List.find?` over an append whose first part yields nothing. -/
theorem find_append_of_none {α : Type} {p : α → Bool} {l1 l2 : List α}
    (h : l1.find? p = none) : (l1 ++ l2).find? p = l2.find? p := by
  rw [List.find?_append, h, Option.none_or]

/-- C7: when no stored user carries the submitted email, registration
succeeds, the created row carries that email, the store gains exactly
that row and the new row is subsequently found under the email; a second
registration of the same email then fails with the 400 DuplicateEmail
response (and, returning an error, adds no row). -/
theorem register_then_duplicate (hashfn : String → String) (db : List UserRec)
    (newId newId2 : Nat) (e pw name pw2 name2 : String)
    (h : get_user db e = none) :
    register_user hashfn db newId e pw name =
      .ok (freshUser hashfn newId e pw name, db ++ [freshUser hashfn newId e pw name]) ∧
    (freshUser hashfn newId e pw name).email = e ∧
    get_user (db ++ [freshUser hashfn newId e pw name]) e =
      some (freshUser hashfn newId e pw name) ∧
    register_user hashfn (db ++ [freshUser hashfn newId e pw name]) newId2 e pw2 name2 =
      .error email_taken_error := by
  have hfound : get_user (db ++ [freshUser hashfn newId e pw name]) e =
      some (freshUser hashfn newId e pw name) := by
    unfold get_user at h ⊢
    rw [find_append_of_none h]
    simp [freshUser]
  refine ⟨?_, rfl, hfound, ?_⟩
  · unfold register_user
    rw [h]
  · unfold register_user
    rw [hfound]

/-- C7 witness: registering a fresh email against the empty store
succeeds and a second registration of the same email fails with the 400
DuplicateEmail response. -/
theorem register_then_duplicate_witness :
    register_user (fun s => s) [] 1 "bea@example.com" "pw" "Bea" =
      .ok (freshUser (fun s => s) 1 "bea@example.com" "pw" "Bea",
        ([] : List UserRec) ++ [freshUser (fun s => s) 1 "bea@example.com" "pw" "Bea"]) ∧
    (freshUser (fun s => s) 1 "bea@example.com" "pw" "Bea").email = "bea@example.com" ∧
    get_user (([] : List UserRec) ++ [freshUser (fun s => s) 1 "bea@example.com" "pw" "Bea"])
      "bea@example.com" = some (freshUser (fun s => s) 1 "bea@example.com" "pw" "Bea") ∧
    register_user (fun s => s)
      (([] : List UserRec) ++ [freshUser (fun s => s) 1 "bea@example.com" "pw" "Bea"])
      2 "bea@example.com" "pw2" "Bea2" = .error email_taken_error :=
  register_then_duplicate (fun s => s) [] 1 2 "bea@example.com" "pw" "Bea" "pw2" "Bea2" rfl

/-- C8: fields absent from an update payload are never modified; in
particular a payload carrying only `age` leaves the stored latitude,
longitude and interests unchanged. -/
theorem applyUpdate_frame (u : UserRec) (p : ProfileUpdate) :
    (p.latitude = none → (applyUpdate u p).latitude = u.latitude) ∧
    (p.longitude = none → (applyUpdate u p).longitude = u.longitude) ∧
    (p.interests = none → (applyUpdate u p).interests = u.interests) ∧
    (p.max_distance = none → (applyUpdate u p).max_distance = u.max_distance) ∧
    (p.preferred_age_range_min = none →
      (applyUpdate u p).preferred_age_range_min = u.preferred_age_range_min) ∧
    (p.preferred_age_range_max = none →
      (applyUpdate u p).preferred_age_range_max = u.preferred_age_range_max) ∧
    (p.age = none → (applyUpdate u p).age = u.age) ∧
    (p.gender = none → (applyUpdate u p).gender = u.gender) ∧
    (∀ a : Option Int,
      (applyUpdate u { age := some a }).latitude = u.latitude ∧
      (applyUpdate u { age := some a }).longitude = u.longitude ∧
      (applyUpdate u { age := some a }).interests = u.interests) := by
  refine ⟨?_, ?_, ?_, ?_, ?_, ?_, ?_, ?_, ?_⟩
  · intro h; simp [applyUpdate, h]
  · intro h; simp [applyUpdate, h]
  · intro h; simp [applyUpdate, h]
  · intro h; simp [applyUpdate, h]
  · intro h; simp [applyUpdate, h]
  · intro h; simp [applyUpdate, h]
  · intro h; simp [applyUpdate, h]
  · intro h; simp [applyUpdate, h]
  · intro a; exact ⟨rfl, rfl, rfl⟩

/-- C8 witness: on `demoUser`, the empty payload leaves latitude alone,
and a payload carrying only `age := 30` leaves latitude, longitude and
interests unchanged. -/
theorem applyUpdate_frame_witness :
    (applyUpdate demoUser {}).latitude = demoUser.latitude ∧
    (applyUpdate demoUser { age := some (some 30) }).latitude = demoUser.latitude ∧
    (applyUpdate demoUser { age := some (some 30) }).longitude = demoUser.longitude ∧
    (applyUpdate demoUser { age := some (some 30) }).interests = demoUser.interests :=
  ⟨(applyUpdate_frame demoUser {}).1 rfl,
    ((applyUpdate_frame demoUser
      { age := some (some 30) }).2.2.2.2.2.2.2.2 (some 30)).1,
    ((applyUpdate_frame demoUser
      { age := some (some 30) }).2.2.2.2.2.2.2.2 (some 30)).2.1,
    ((applyUpdate_frame demoUser
      { age := some (some 30) }).2.2.2.2.2.2.2.2 (some 30)).2.2⟩

/-- C9: a field explicitly supplied as null in the payload is cleared
(set to none) rather than left unchanged, and clearing one coordinate
while the other is absent from the payload leaves the other coordinate
stored as it was — possibly present alone. -/
theorem applyUpdate_null_clears (u : UserRec) (p : ProfileUpdate) :
    (p.latitude = some none → (applyUpdate u p).latitude = none) ∧
    (p.longitude = some none → (applyUpdate u p).longitude = none) ∧
    (p.max_distance = some none → (applyUpdate u p).max_distance = none) ∧
    (p.interests = some none → (applyUpdate u p).interests = none) ∧
    (p.gender = some none → (applyUpdate u p).gender = none) ∧
    (p.latitude = some none → p.longitude = none →
      (applyUpdate u p).latitude = none ∧ (applyUpdate u p).longitude = u.longitude) := by
  refine ⟨?_, ?_, ?_, ?_, ?_, ?_⟩
  · intro h; simp [applyUpdate, h]
  · intro h; simp [applyUpdate, h]
  · intro h; simp [applyUpdate, h]
  · intro h; simp [applyUpdate, h]
  · intro h; simp [applyUpdate, h]
  · intro h1 h2
    exact ⟨by simp [applyUpdate, h1], by simp [applyUpdate, h2]⟩

/-- C9 witness: on `demoUser` — whose coordinates are (3, 4) — the
payload carrying only `latitude := null` clears the stored latitude and
leaves the longitude present at 4. -/
theorem applyUpdate_null_clears_witness :
    (applyUpdate demoUser { latitude := some none }).latitude = none ∧
    (applyUpdate demoUser { latitude := some none }).longitude = demoUser.longitude :=
  (applyUpdate_null_clears demoUser { latitude := some none }).2.2.2.2.2 rfl rfl

/-- Rewriting stored password hashes commutes with caller resolution:
lookup is by email only. -/
theorem get_current_user_map_rehash (f : UserRec → String) (t : TokenModel)
    (db : List UserRec) :
    get_current_user t (db.map (rehash f)) = (get_current_user t db).map (rehash f) := by
  obtain ⟨sigOk, expired, ⟨sub⟩⟩ := t
  cases sigOk <;> cases expired
  · rfl
  · rfl
  · cases sub with
    | none => rfl
    | some e =>
      have hfind : get_user (db.map (rehash f)) e = (get_user db e).map (rehash f) := by
        unfold get_user
        rw [List.find?_map]
        rfl
      have hl : get_current_user ⟨true, false, ⟨some e⟩⟩ (db.map (rehash f)) =
          (match get_user (db.map (rehash f)) e with
            | none => Except.error credentials_exception
            | some u => Except.ok u) := rfl
      have hr : get_current_user ⟨true, false, ⟨some e⟩⟩ db =
          (match get_user db e with
            | none => Except.error credentials_exception
            | some u => Except.ok u) := rfl
      rw [hl, hr, hfind]
      cases get_user db e with
      | none => rfl
      | some u => rfl
  · rfl

/-- Rewriting stored password hashes commutes with the nearby search:
the guard, the store query and the distance filter read no hash. -/
theorem get_nearby_users_map_rehash (f : UserRec → String) (db : List UserRec)
    (cu : UserRec) :
    get_nearby_users (db.map (rehash f)) (rehash f cu) =
      (get_nearby_users db cu).map (List.map (rehash f)) := by
  simp only [get_nearby_users, rehash]
  by_cases hc : (cu.latitude = none ∨ cu.latitude = some 0) ∨
      (cu.longitude = none ∨ cu.longitude = some 0)
  · rw [if_pos hc, if_pos hc]
    rfl
  · rw [if_neg hc, if_neg hc, List.filter_map, List.filter_map]
    rfl

/-- C10: every user-returning operation serialises through the `User`
response model, which carries no password-hash field: serialisation is
invariant under any change of stored hashes, and so are the full
responses of register, read-self, update-profile and nearby. -/
theorem responses_hide_password_hash (f : UserRec → String) :
    (∀ u : UserRec, toUserOut (rehash f u) = toUserOut u) ∧
    (∀ hashfn hashfn2 : String → String, ∀ db : List UserRec, ∀ newId : Nat,
      ∀ email pw name : String,
      register_user_response hashfn db newId email pw name =
        register_user_response hashfn2 db newId email pw name) ∧
    (∀ t : TokenModel, ∀ db : List UserRec,
      read_users_me t (db.map (rehash f)) = read_users_me t db) ∧
    (∀ u : UserRec, ∀ p : ProfileUpdate,
      update_profile_response (rehash f u) p = update_profile_response u p) ∧
    (∀ db : List UserRec, ∀ cu : UserRec,
      get_nearby_users_response (db.map (rehash f)) (rehash f cu) =
        get_nearby_users_response db cu) := by
  refine ⟨fun u => rfl, ?_, ?_, fun u p => rfl, ?_⟩
  · intro hashfn hashfn2 db newId email pw name
    unfold register_user_response register_user
    cases h : get_user db email
    · simp only [h]
      rfl
    · simp only [h]
  · intro t db
    unfold read_users_me
    rw [get_current_user_map_rehash]
    cases get_current_user t db with
    | error err => rfl
    | ok u => rfl
  · intro db cu
    unfold get_nearby_users_response
    rw [get_nearby_users_map_rehash]
    cases get_nearby_users db cu with
    | error err => rfl
    | ok l =>
      simp only [Except.map]
      rw [List.map_map]
      rfl

end TagApp
